import Mathlib

/-! Verification of the prayer-cycle application core (Vue/Pinia + TimerService +
StorageService), shallowly embedded in Lean.

The embedding mirrors three source files:
* `src/stores/prayerCycle.ts` — the Pinia store (cycle state machine),
* `src/utils/TimerService.ts` — the drift-compensated countdown engine,
* the `StorageService` (settings/session persistence with validation).

JavaScript `number` values are modelled as rationals (`ℚ`); the step index,
declared as an integer index 0–11 in the data model, is modelled as `ℤ`.
Stored records are modelled post-parse: a stored string is either `corrupt`
(fails `JSON.parse`) or a parsed JSON value.
-/

namespace PrayerCycle

/-- Status values of `PrayerCycleState.status` from `src/types`. -/
inductive PrayerStatus where
  | idle
  | active
  | paused
  | transitioning
  | completed
deriving DecidableEq, Repr

/-- Device type values of `UserSettings.deviceType` from `src/types`. -/
inductive DeviceType where
  | mobile
  | desktop
deriving DecidableEq, Repr

/-- UserSettings interface from `src/types`. -/
structure UserSettings where
  audioEnabled : Bool
  primaryColor : String
  deviceType : DeviceType
deriving DecidableEq, Repr

/-- Constant `TOTAL_PRAYER_STEPS` from `src/constants/prayerSteps.ts` (12 steps). -/
def TOTAL_PRAYER_STEPS : ℤ := 12

/-- Constant `STEP_DURATION_SECONDS` from `src/constants/prayerSteps.ts`. -/
def STEP_DURATION_SECONDS : ℚ := 300

/-- The reactive state held by the `prayerCycle` Pinia store:
`currentStep`, `timeRemaining`, `status`, `settings` plus the overridable
`stepDuration` ref. -/
structure StoreState where
  currentStep : ℤ
  timeRemaining : ℚ
  status : PrayerStatus
  settings : UserSettings
  stepDuration : ℚ
deriving DecidableEq, Repr

/-- Default settings as initialised in the store. -/
def defaultSettings : UserSettings :=
  { audioEnabled := true, primaryColor := "#2cace2", deviceType := DeviceType.mobile }

/-- The store's initial state: step 0, full duration, idle. -/
def initState : StoreState :=
  { currentStep := 0
    timeRemaining := STEP_DURATION_SECONDS
    status := PrayerStatus.idle
    settings := defaultSettings
    stepDuration := STEP_DURATION_SECONDS }

/-- Computed getter `progressPercentage`. Note that the source divides by the
constant `STEP_DURATION_SECONDS`, not by the overridable `stepDuration`. -/
def progressPercentage (s : StoreState) : ℚ :=
  let completedSteps : ℚ := (s.currentStep : ℚ)
  let currentStepProgress : ℚ :=
    (STEP_DURATION_SECONDS - s.timeRemaining) / STEP_DURATION_SECONDS
  ((completedSteps + currentStepProgress) / (TOTAL_PRAYER_STEPS : ℚ)) * 100

/-- Store action `startCycle()`. -/
def startCycle (s : StoreState) : StoreState :=
  { s with currentStep := 0, timeRemaining := s.stepDuration, status := PrayerStatus.active }

/-- Store action `pauseTimer()`. -/
def pauseTimer (s : StoreState) : StoreState :=
  if s.status = PrayerStatus.active then { s with status := PrayerStatus.paused } else s

/-- Store action `resumeTimer()`. -/
def resumeTimer (s : StoreState) : StoreState :=
  if s.status = PrayerStatus.paused then { s with status := PrayerStatus.active } else s

/-- Store action `restartCycle()`. -/
def restartCycle (s : StoreState) : StoreState :=
  { s with currentStep := 0, timeRemaining := s.stepDuration, status := PrayerStatus.idle }

/-- Store action `completeCycle()`. -/
def completeCycle (s : StoreState) : StoreState :=
  { s with status := PrayerStatus.completed, timeRemaining := 0 }

/-- Store action `nextStep()`. -/
def nextStep (s : StoreState) : StoreState :=
  if s.currentStep < TOTAL_PRAYER_STEPS - 1 then
    { s with currentStep := s.currentStep + 1
             timeRemaining := s.stepDuration
             status := PrayerStatus.active }
  else
    completeCycle s

/-- Store action `updateTimer(remaining)`. -/
def updateTimer (remaining : ℚ) (s : StoreState) : StoreState :=
  { s with timeRemaining := max 0 remaining }

/-- Store action `completeStep()` (delegates to `nextStep`). -/
def completeStep (s : StoreState) : StoreState :=
  nextStep s

/-- A `Partial<UserSettings>` argument of `updateSettings`. -/
structure SettingsPatch where
  audioEnabled : Option Bool := none
  primaryColor : Option String := none
  deviceType : Option DeviceType := none
deriving DecidableEq, Repr

/-- Shallow spread `{ ...settings.value, ...newSettings }`. -/
def mergeSettings (cur : UserSettings) (p : SettingsPatch) : UserSettings :=
  { audioEnabled := p.audioEnabled.getD cur.audioEnabled
    primaryColor := p.primaryColor.getD cur.primaryColor
    deviceType := p.deviceType.getD cur.deviceType }

/-- Store action `updateSettings(newSettings)`. -/
def updateSettings (p : SettingsPatch) (s : StoreState) : StoreState :=
  { s with settings := mergeSettings s.settings p }

/-- Store action `setStepDuration(duration)`. -/
def setStepDuration (d : ℚ) (s : StoreState) : StoreState :=
  if s.status = PrayerStatus.idle then
    { s with stepDuration := d, timeRemaining := d }
  else
    { s with stepDuration := d }

/-- Store action `reset()`. -/
def reset (s : StoreState) : StoreState :=
  { s with currentStep := 0, timeRemaining := s.stepDuration, status := PrayerStatus.idle }

/-- A `Partial<PrayerCycleState>` argument of `restoreSession`. -/
structure StatePatch where
  currentStep : Option ℤ := none
  timeRemaining : Option ℚ := none
  status : Option PrayerStatus := none
  settings : Option UserSettings := none
deriving DecidableEq, Repr

/-- Store action `restoreSession(sessionState)`: each supplied field is
independently clamped/applied. -/
def restoreSession (p : StatePatch) (s : StoreState) : StoreState :=
  let s1 := match p.currentStep with
    | some c => { s with currentStep := max 0 (min c (TOTAL_PRAYER_STEPS - 1)) }
    | none => s
  let s2 := match p.timeRemaining with
    | some t => { s1 with timeRemaining := max 0 t }
    | none => s1
  let s3 := match p.status with
    | some st => { s2 with status := st }
    | none => s2
  match p.settings with
  | some newSettings => { s3 with settings := newSettings }
  | none => s3

/-- One invocation of a store action, as exposed on the store object. -/
inductive Action where
  | startCycle
  | pauseTimer
  | resumeTimer
  | restartCycle
  | nextStep
  | updateTimer (remaining : ℚ)
  | completeStep
  | completeCycle
  | updateSettings (p : SettingsPatch)
  | setStepDuration (d : ℚ)
  | reset
  | restoreSession (p : StatePatch)
deriving DecidableEq, Repr

/-- Interpretation of a store action on the store state. -/
def applyAction (a : Action) (s : StoreState) : StoreState :=
  match a with
  | Action.startCycle => startCycle s
  | Action.pauseTimer => pauseTimer s
  | Action.resumeTimer => resumeTimer s
  | Action.restartCycle => restartCycle s
  | Action.nextStep => nextStep s
  | Action.updateTimer r => updateTimer r s
  | Action.completeStep => completeStep s
  | Action.completeCycle => completeCycle s
  | Action.updateSettings p => updateSettings p s
  | Action.setStepDuration d => setStepDuration d s
  | Action.reset => reset s
  | Action.restoreSession p => restoreSession p s

/-- Running a sequence of store actions left to right. -/
def runActions (l : List Action) (s : StoreState) : StoreState :=
  l.foldl (fun t a => applyAction a t) s

def fullCycleActions : List Action :=
  [Action.startCycle, Action.nextStep, Action.nextStep, Action.nextStep, Action.nextStep,
   Action.nextStep, Action.nextStep, Action.nextStep, Action.nextStep, Action.nextStep,
   Action.nextStep, Action.nextStep, Action.nextStep]

def fullCycleState : StoreState := runActions fullCycleActions initState

def cex2State : StoreState :=
  runActions
    [Action.startCycle, Action.nextStep, Action.nextStep, Action.nextStep, Action.nextStep,
     Action.nextStep, Action.nextStep, Action.nextStep, Action.nextStep, Action.nextStep,
     Action.nextStep, Action.nextStep, Action.updateTimer 0] initState

inductive OrchStep : StoreState → StoreState → Prop where
  | startCycle (s : StoreState) : OrchStep s (startCycle s)
  | pauseTimer (s : StoreState) : OrchStep s (pauseTimer s)
  | resumeTimer (s : StoreState) : OrchStep s (resumeTimer s)
  | restartCycle (s : StoreState) : OrchStep s (restartCycle s)
  | nextStep (s : StoreState) : OrchStep s (nextStep s)
  | completeStep (s : StoreState) : OrchStep s (completeStep s)
  | updateTimer (r : ℚ) (s : StoreState) (h : s.status = PrayerStatus.active) :
      OrchStep s (updateTimer r s)
  | updateSettings (p : SettingsPatch) (s : StoreState) : OrchStep s (updateSettings p s)
  | setStepDuration (d : ℚ) (s : StoreState) : OrchStep s (setStepDuration d s)
  | reset (s : StoreState) : OrchStep s (reset s)

def OrchReachable (s : StoreState) : Prop :=
  Relation.ReflTransGen OrchStep initState s

def StoreInv (s : StoreState) : Prop :=
  0 ≤ s.currentStep ∧ s.currentStep ≤ 11 ∧
  (s.status = PrayerStatus.completed → s.timeRemaining = 0 ∧ s.currentStep = 11) ∧
  (s.status = PrayerStatus.idle → s.currentStep = 0 ∧ s.timeRemaining = s.stepDuration)

/-! The drift-compensated countdown engine, `src/utils/TimerService.ts`.
Time is passed explicitly: each operation receives the current
`performance.now()` value (milliseconds, modelled as a rational). The
`onTick` and `onComplete` callbacks are modelled as emitted events. -/

structure TimerState where
  startTime : ℚ
  pausedTime : ℚ
  duration : ℚ
  remainingTime : ℚ
  isRunning : Bool
  isPaused : Bool
  frameScheduled : Bool
deriving DecidableEq, Repr

inductive TimerEvent where
  | tick (remaining : ℚ)
  | complete
deriving DecidableEq, Repr

def tick (now : ℚ) (s : TimerState) : TimerState × List TimerEvent :=
  if !s.isRunning || s.isPaused then (s, [])
  else
    let elapsed := (now - s.startTime) / 1000
    let remaining := max 0 (s.duration - elapsed)
    if remaining ≤ 0 then
      ({ s with remainingTime := remaining, isRunning := false, frameScheduled := false },
       [TimerEvent.tick remaining, TimerEvent.complete])
    else
      ({ s with remainingTime := remaining, frameScheduled := true },
       [TimerEvent.tick remaining])

def stop (s : TimerState) : TimerState :=
  { s with isRunning := false, isPaused := false, frameScheduled := false }

def startInit (d : ℚ) (now : ℚ) (s : TimerState) : TimerState :=
  let s0 := if s.isRunning then stop s else s
  { s0 with duration := d, remainingTime := d, isRunning := true,
            isPaused := false, startTime := now }

def start (d : ℚ) (now : ℚ) (s : TimerState) : TimerState × List TimerEvent :=
  tick now (startInit d now s)

def pause (now : ℚ) (s : TimerState) : TimerState × ℚ :=
  if !s.isRunning || s.isPaused then (s, s.remainingTime)
  else
    let remaining := max 0 (s.duration - (now - s.startTime) / 1000)
    ({ s with remainingTime := remaining, isPaused := true, pausedTime := now,
              frameScheduled := false }, remaining)

def resume (now : ℚ) (override : Option ℚ) (s : TimerState) : TimerState × List TimerEvent :=
  if !s.isRunning || !s.isPaused then (s, [])
  else
    match override with
    | some r =>
      tick now { s with remainingTime := r, duration := r, startTime := now, isPaused := false }
    | none =>
      tick now { s with startTime := s.startTime + (now - s.pausedTime), isPaused := false }

def runTicks (times : List ℚ) (s : TimerState) : TimerState × List TimerEvent :=
  match times with
  | [] => (s, [])
  | t :: rest =>
    let p := tick t s
    let q := runTicks rest p.1
    (q.1, p.2 ++ q.2)

def runningTimer : TimerState :=
  ⟨0, 0, 10, 10, true, false, true⟩

def pausedTimer : TimerState :=
  ⟨0, 1000, 10, 9, true, true, false⟩

/-! The StorageService persistence layer. Stored values are modelled
post-parse: a record is either corrupt (`JSON.parse` throws) or a parsed
JSON value. The `Storage` structure is the effective key-value store
(localStorage when available, otherwise the in-memory fallback map). -/

/-- JSON values as produced by JSON.parse. -/
inductive JVal where
  | null
  | bool (b : Bool)
  | num (q : ℚ)
  | str (s : String)
  | obj (fields : List (String × JVal))
  | arr (elems : List JVal)

/-- A stored string is either malformed (JSON.parse throws) or parses to a value. -/
inductive StoredDoc where
  | corrupt
  | parsed (v : JVal)

/-- The effective key-value store of StorageService. -/
structure Storage where
  settingsRec : Option StoredDoc
  sessionRec : Option StoredDoc
  backupRec : Option StoredDoc

/-- JavaScript typeof x === 'object'. -/
def typeofIsObject (v : JVal) : Bool :=
  match v with
  | JVal.null => true
  | JVal.obj _ => true
  | JVal.arr _ => true
  | _ => false

/-- JavaScript property access `v.k`: throws TypeError on null, yields the
field on objects, `undefined` (none) otherwise. -/
def getField (v : JVal) (k : String) : Except Unit (Option JVal) :=
  match v with
  | JVal.null => Except.error ()
  | JVal.obj fields => Except.ok (List.lookup k fields)
  | _ => Except.ok none

def parseDoc (d : StoredDoc) : Except Unit JVal :=
  match d with
  | StoredDoc.corrupt => Except.error ()
  | StoredDoc.parsed v => Except.ok v

def isValidSessionData (data : JVal) : Except Unit Bool := do
  if !typeofIsObject data then return false
  let cs ← getField data "currentStep"
  match cs with
  | some (JVal.num n) =>
    if n < 0 then return false
    if 12 ≤ n then return false
    let tr ← getField data "timeRemaining"
    match tr with
    | some (JVal.num t) =>
      if t < 0 then return false
      let st ← getField data "status"
      match st with
      | some (JVal.str sv) =>
        if !(sv = "active" ∨ sv = "paused" ∨ sv = "transitioning" : Bool) then return false
        let ts ← getField data "timestamp"
        match ts with
        | some (JVal.num _) => return true
        | _ => return false
      | _ => return false
    | _ => return false
  | _ => return false

def isValidSettingsData (data : JVal) : Except Unit Bool := do
  if !typeofIsObject data then return false
  let ae ← getField data "audioEnabled"
  match ae with
  | some (JVal.bool _) =>
    let pc ← getField data "primaryColor"
    match pc with
    | some (JVal.str _) =>
      let dt ← getField data "deviceType"
      match dt with
      | some (JVal.str d) => return (d = "mobile" ∨ d = "desktop" : Bool)
      | _ => return false
    | _ => return false
  | _ => return false

def deviceTypeStr (d : DeviceType) : String :=
  match d with
  | DeviceType.mobile => "mobile"
  | DeviceType.desktop => "desktop"

def statusStr (st : PrayerStatus) : String :=
  match st with
  | PrayerStatus.idle => "idle"
  | PrayerStatus.active => "active"
  | PrayerStatus.paused => "paused"
  | PrayerStatus.transitioning => "transitioning"
  | PrayerStatus.completed => "completed"

/-- JSON.stringify of a UserSettings object. -/
def settingsToJVal (s : UserSettings) : JVal :=
  JVal.obj [("audioEnabled", JVal.bool s.audioEnabled),
            ("primaryColor", JVal.str s.primaryColor),
            ("deviceType", JVal.str (deviceTypeStr s.deviceType))]

/-- Extraction of a (validated) settings object into UserSettings. -/
def settingsOfJVal (v : JVal) : UserSettings :=
  { audioEnabled :=
      match v with
      | JVal.obj f =>
        match List.lookup "audioEnabled" f with
        | some (JVal.bool b) => b
        | _ => defaultSettings.audioEnabled
      | _ => defaultSettings.audioEnabled
    primaryColor :=
      match v with
      | JVal.obj f =>
        match List.lookup "primaryColor" f with
        | some (JVal.str s) => s
        | _ => defaultSettings.primaryColor
      | _ => defaultSettings.primaryColor
    deviceType :=
      match v with
      | JVal.obj f =>
        match List.lookup "deviceType" f with
        | some (JVal.str d) =>
          if d = "mobile" then DeviceType.mobile
          else if d = "desktop" then DeviceType.desktop
          else defaultSettings.deviceType
        | _ => defaultSettings.deviceType
      | _ => defaultSettings.deviceType }

/-- The field-by-field merge with defaults in loadSettings; property accesses
can throw (on null), hence Except. -/
def mergeParsedSettings (v : JVal) : Except Unit UserSettings := do
  let ae ← getField v "audioEnabled"
  let audioEnabled :=
    match ae with
    | some (JVal.bool b) => b
    | _ => defaultSettings.audioEnabled
  let pc ← getField v "primaryColor"
  let primaryColor :=
    match pc with
    | some (JVal.str s) => s
    | _ => defaultSettings.primaryColor
  let dt ← getField v "deviceType"
  let deviceType :=
    match dt with
    | some (JVal.str d) =>
      if d = "mobile" then DeviceType.mobile
      else if d = "desktop" then DeviceType.desktop
      else defaultSettings.deviceType
    | _ => defaultSettings.deviceType
  return { audioEnabled := audioEnabled, primaryColor := primaryColor,
           deviceType := deviceType }

/-- StorageService.saveSettings: writes the serialized settings to the
primary key and a backup copy to the backup key. -/
def saveSettings (s : UserSettings) (st : Storage) : Storage :=
  { st with settingsRec := some (StoredDoc.parsed (settingsToJVal s)),
            backupRec := some (StoredDoc.parsed (settingsToJVal s)) }

/-- StorageService.restoreSettingsFromBackup. -/
def restoreSettingsFromBackup (st : Storage) : Option UserSettings × Storage :=
  match st.backupRec with
  | none => (none, st)
  | some doc =>
    match parseDoc doc with
    | Except.error _ => (none, st)
    | Except.ok v =>
      match isValidSettingsData v with
      | Except.error _ => (none, st)
      | Except.ok true => (some (settingsOfJVal v), { st with settingsRec := some doc })
      | Except.ok false => (none, st)

/-- StorageService.loadSettings. -/
def loadSettings (st : Storage) : UserSettings × Storage :=
  match st.settingsRec with
  | none => (defaultSettings, st)
  | some doc =>
    match (do
      let v ← parseDoc doc
      mergeParsedSettings v : Except Unit UserSettings) with
    | Except.ok s => (s, st)
    | Except.error _ =>
      match restoreSettingsFromBackup st with
      | (some s, st2) => (s, st2)
      | (none, st2) => (defaultSettings, st2)

/-- StorageService.saveSession: writes only for in-progress statuses. -/
def saveSession (now : ℚ) (state : StoreState) (st : Storage) : Storage :=
  if state.status = PrayerStatus.active ∨ state.status = PrayerStatus.paused ∨
      state.status = PrayerStatus.transitioning then
    { st with sessionRec := some (StoredDoc.parsed (JVal.obj
        [("currentStep", JVal.num (state.currentStep : ℚ)),
         ("timeRemaining", JVal.num state.timeRemaining),
         ("status", JVal.str (statusStr state.status)),
         ("timestamp", JVal.num now)])) }
  else
    st

/-- StorageService.clearSession. -/
def clearSession (st : Storage) : Storage :=
  { st with sessionRec := none }

/-- Numeric field extraction used by loadSession on validated data. -/
def numFieldD (v : JVal) (k : String) : ℚ :=
  match getField v k with
  | Except.ok (some (JVal.num q)) => q
  | _ => 0

def strFieldD (v : JVal) (k : String) : String :=
  match getField v k with
  | Except.ok (some (JVal.str s)) => s
  | _ => ""

/-- Recoverable state subset returned by loadSession. -/
structure RecoveredSession where
  currentStep : ℚ
  timeRemaining : ℚ
  status : String
  settings : UserSettings

/-- Maximum session age: 2 hours in milliseconds. -/
def maxSessionAge : ℚ := 2 * 60 * 60 * 1000

/-- StorageService.loadSession. -/
def loadSession (now : ℚ) (st : Storage) : Option RecoveredSession × Storage :=
  match st.sessionRec with
  | none => (none, st)
  | some doc =>
    match parseDoc doc with
    | Except.error _ => (none, clearSession st)
    | Except.ok v =>
      match isValidSessionData v with
      | Except.error _ => (none, clearSession st)
      | Except.ok false => (none, st)
      | Except.ok true =>
        if now - numFieldD v "timestamp" ≤ maxSessionAge then
          let p := loadSettings st
          (some { currentStep := numFieldD v "currentStep"
                  timeRemaining := numFieldD v "timeRemaining"
                  status := strFieldD v "status"
                  settings := p.1 }, p.2)
        else
          (none, clearSession st)

def invalidStepSessionVal : JVal :=
  JVal.obj [("currentStep", JVal.num 15), ("timeRemaining", JVal.num 10),
            ("status", JVal.str "active"), ("timestamp", JVal.num 0)]

def negTimeSessionVal : JVal :=
  JVal.obj [("currentStep", JVal.num 3), ("timeRemaining", JVal.num (-5)),
            ("status", JVal.str "active"), ("timestamp", JVal.num 0)]

def stBadStep : Storage :=
  ⟨none, some (StoredDoc.parsed invalidStepSessionVal), none⟩

def stNegTime : Storage :=
  ⟨none, some (StoredDoc.parsed negTimeSessionVal), none⟩

def badPrimaryVal : JVal :=
  JVal.obj [("audioEnabled", JVal.str "yes")]

def goodBackupVal : JVal :=
  JVal.obj [("audioEnabled", JVal.bool false), ("primaryColor", JVal.str "#000000"),
            ("deviceType", JVal.str "desktop")]

def cex9St : Storage :=
  ⟨some (StoredDoc.parsed badPrimaryVal), none, some (StoredDoc.parsed goodBackupVal)⟩

def someStorage : Storage :=
  ⟨none, some (StoredDoc.parsed (JVal.num 1)), none⟩

/-- C2 counterexample: progressPercentage divides by the constant 300-second
step duration and ignores the status, so the reachable state obtained by
startCycle, 11 nextStep calls and updateTimer 0 has progressPercentage 100
while still Active, and after overriding the step duration to 600,
startCycle yields a nonzero progressPercentage. -/
theorem c2_counterexample :
    cex2State.status ≠ PrayerStatus.completed ∧ progressPercentage cex2State = 100 ∧
    progressPercentage (startCycle (setStepDuration 600 initState)) ≠ 0 := by
  have h : cex2State = ⟨11, 0, PrayerStatus.active, defaultSettings, 300⟩ := by decide
  have h2 : startCycle (setStepDuration 600 initState)
      = ⟨0, 600, PrayerStatus.active, defaultSettings, 600⟩ := by decide
  refine ⟨by rw [h]; decide, by rw [h]; norm_num [progressPercentage, STEP_DURATION_SECONDS, TOTAL_PRAYER_STEPS], ?_⟩
  rw [h2]
  norm_num [progressPercentage, STEP_DURATION_SECONDS, TOTAL_PRAYER_STEPS]

/-- C2 (amended): with the default 300-second step duration,
progressPercentage is exactly 0 immediately after startCycle();
progressPercentage is exactly 100 whenever currentStep = 11 and
timeRemaining = 0, in particular in the Completed state reached by running
the full cycle. Reaching 100 does not require status Completed, and under
an overridden step duration the post-startCycle value is not 0. -/
theorem c2_amended :
    (∀ s : StoreState, s.stepDuration = STEP_DURATION_SECONDS →
      progressPercentage (startCycle s) = 0) ∧
    (∀ s : StoreState, s.currentStep = 11 → s.timeRemaining = 0 →
      progressPercentage s = 100) ∧
    (fullCycleState.status = PrayerStatus.completed ∧ progressPercentage fullCycleState = 100) := by
  refine ⟨?_, ?_, ?_⟩
  · intro s h
    norm_num [startCycle, progressPercentage, h, STEP_DURATION_SECONDS, TOTAL_PRAYER_STEPS]
  · intro s h1 h2
    norm_num [progressPercentage, h1, h2, STEP_DURATION_SECONDS, TOTAL_PRAYER_STEPS]
  · have h : fullCycleState = ⟨11, 0, PrayerStatus.completed, defaultSettings, 300⟩ := by decide
    rw [h]
    exact ⟨rfl, by norm_num [progressPercentage, STEP_DURATION_SECONDS, TOTAL_PRAYER_STEPS]⟩

/-- Witness instantiating the amended C2 statement at concrete states. -/
theorem c2_amended_witness :
    progressPercentage (startCycle initState) = 0 ∧
    progressPercentage ⟨11, 0, PrayerStatus.active, defaultSettings, 300⟩ = 100 :=
  ⟨c2_amended.1 initState rfl,
   c2_amended.2.1 ⟨11, 0, PrayerStatus.active, defaultSettings, 300⟩ rfl rfl⟩

lemma storeInv_init : StoreInv initState := by
  refine ⟨le_refl 0, by norm_num [initState], ?_, ?_⟩ <;> intro h <;> simp [initState] at h ⊢

lemma orchStep_inv {s t : StoreState} (h : OrchStep s t) (hs : StoreInv s) : StoreInv t := by
  obtain ⟨hb0, hb1, hc, hi⟩ := hs
  cases h with
  | startCycle s => simp [StoreInv, startCycle]
  | pauseTimer s =>
    unfold pauseTimer
    split_ifs with hst
    · simp_all [StoreInv]
    · exact ⟨hb0, hb1, hc, hi⟩
  | resumeTimer s =>
    unfold resumeTimer
    split_ifs with hst
    · simp_all [StoreInv]
    · exact ⟨hb0, hb1, hc, hi⟩
  | restartCycle s => simp [StoreInv, restartCycle]
  | nextStep s =>
    unfold nextStep
    split_ifs with hst
    · simp [StoreInv, TOTAL_PRAYER_STEPS] at hst ⊢
      omega
    · simp [StoreInv, completeCycle, TOTAL_PRAYER_STEPS] at hst ⊢
      omega
  | completeStep s =>
    unfold completeStep nextStep
    split_ifs with hst
    · simp [StoreInv, TOTAL_PRAYER_STEPS] at hst ⊢
      omega
    · simp [StoreInv, completeCycle, TOTAL_PRAYER_STEPS] at hst ⊢
      omega
  | updateTimer r s hst =>
    refine ⟨hb0, hb1, ?_, ?_⟩ <;> intro h2 <;> simp [updateTimer] at h2 <;> simp [hst] at h2
  | updateSettings p s =>
    exact ⟨hb0, hb1, fun h2 => hc h2, fun h2 => hi h2⟩
  | setStepDuration d s =>
    unfold setStepDuration
    split_ifs with hst
    · refine ⟨hb0, hb1, ?_, ?_⟩
      · intro h2
        simp at h2
        rw [hst] at h2
        exact PrayerStatus.noConfusion h2
      · intro h2
        exact ⟨(hi hst).1, rfl⟩
    · refine ⟨hb0, hb1, ?_, ?_⟩
      · intro h2
        simp at h2
        exact hc h2
      · intro h2
        simp at h2
        exact absurd h2 hst
  | reset s => simp [StoreInv, reset]

lemma orchReachable_inv {s : StoreState} (h : OrchReachable s) : StoreInv s := by
  induction h with
  | refl => exact storeInv_init
  | tail _ hstep ih => exact orchStep_inv hstep ih

/-- C3 counterexample: the exposed store actions completeCycle and
updateTimer are callable in any status; completeCycle from the initial
state yields Completed with currentStep 0, and updateTimer 5 from the
initial (Idle) state yields Idle with timeRemaining different from
stepDuration. -/
theorem c3_counterexample :
    (completeCycle initState).status = PrayerStatus.completed ∧
    (completeCycle initState).currentStep ≠ 11 ∧
    (updateTimer 5 initState).status = PrayerStatus.idle ∧
    (updateTimer 5 initState).timeRemaining ≠ (updateTimer 5 initState).stepDuration := by
  decide

/-- C3 (amended): for every state reachable by store actions in which
updateTimer is invoked only while Active (as the orchestration layer does)
and the direct completeCycle and restoreSession escape hatches are not
used, Completed implies timeRemaining = 0 and currentStep = 11, and Idle
implies currentStep = 0 and timeRemaining = stepDuration. -/
theorem c3_amended (s : StoreState) (h : OrchReachable s) :
    (s.status = PrayerStatus.completed → s.timeRemaining = 0 ∧ s.currentStep = 11) ∧
    (s.status = PrayerStatus.idle → s.currentStep = 0 ∧ s.timeRemaining = s.stepDuration) :=
  ⟨(orchReachable_inv h).2.2.1, (orchReachable_inv h).2.2.2⟩

/-- Witness instantiating the amended C3 statement at the initial state. -/
theorem c3_amended_witness :
    (initState.status = PrayerStatus.completed →
      initState.timeRemaining = 0 ∧ initState.currentStep = 11) ∧
    (initState.status = PrayerStatus.idle →
      initState.currentStep = 0 ∧ initState.timeRemaining = initState.stepDuration) :=
  c3_amended initState Relation.ReflTransGen.refl

lemma applyAction_step_bounds (a : Action) (s : StoreState)
    (h : 0 ≤ s.currentStep ∧ s.currentStep ≤ 11) :
    0 ≤ (applyAction a s).currentStep ∧ (applyAction a s).currentStep ≤ 11 := by
  cases a with
  | startCycle => simp [applyAction, startCycle]
  | pauseTimer =>
    unfold applyAction pauseTimer
    split_ifs <;> simpa using h
  | resumeTimer =>
    unfold applyAction resumeTimer
    split_ifs <;> simpa using h
  | restartCycle => simp [applyAction, restartCycle]
  | nextStep =>
    unfold applyAction nextStep
    split_ifs with hst
    · simp [TOTAL_PRAYER_STEPS] at hst ⊢
      omega
    · simpa [completeCycle] using h
  | updateTimer r => simpa [applyAction, updateTimer] using h
  | completeStep =>
    unfold applyAction completeStep nextStep
    split_ifs with hst
    · simp [TOTAL_PRAYER_STEPS] at hst ⊢
      omega
    · simpa [completeCycle] using h
  | completeCycle => simpa [applyAction, completeCycle] using h
  | updateSettings p => simpa [applyAction, updateSettings] using h
  | setStepDuration d =>
    unfold applyAction setStepDuration
    split_ifs <;> simpa using h
  | reset => simp [applyAction, reset]
  | restoreSession p =>
    unfold applyAction restoreSession
    rcases p with ⟨pc, pt, ps, pset⟩
    cases pc <;> cases pt <;> cases ps <;> cases pset <;>
      simp [TOTAL_PRAYER_STEPS] <;> omega

lemma runActions_step_bounds (l : List Action) (s : StoreState)
    (h : 0 ≤ s.currentStep ∧ s.currentStep ≤ 11) :
    0 ≤ (runActions l s).currentStep ∧ (runActions l s).currentStep ≤ 11 := by
  induction l generalizing s with
  | nil => exact h
  | cons a rest ih => exact ih (applyAction a s) (applyAction_step_bounds a s h)

/-- C6: calling nextStep at currentStep = 11 sets status Completed and
timeRemaining 0 while leaving currentStep = 11; startCycle followed by 12
nextStep calls ends Completed; and no store action sequence from the
initial state ever reaches a step index greater than 11. -/
theorem c6 :
    (∀ s : StoreState, s.currentStep = 11 →
      (nextStep s).status = PrayerStatus.completed ∧ (nextStep s).timeRemaining = 0 ∧
      (nextStep s).currentStep = 11) ∧
    fullCycleState.status = PrayerStatus.completed ∧
    (∀ l : List Action, (runActions l initState).currentStep ≤ 11) := by
  refine ⟨?_, ?_, ?_⟩
  · intro s h
    unfold nextStep
    split_ifs with hst
    · rw [h] at hst
      exact absurd hst (by decide)
    · simp [completeCycle, h]
  · decide
  · intro l
    exact (runActions_step_bounds l initState (by decide)).2

/-- Witness instantiating C6 at a concrete step-11 state and action list. -/
theorem c6_witness :
    ((nextStep ⟨11, 37, PrayerStatus.active, defaultSettings, 300⟩).status = PrayerStatus.completed ∧
     (nextStep ⟨11, 37, PrayerStatus.active, defaultSettings, 300⟩).timeRemaining = 0 ∧
     (nextStep ⟨11, 37, PrayerStatus.active, defaultSettings, 300⟩).currentStep = 11) ∧
    (runActions [Action.startCycle] initState).currentStep ≤ 11 :=
  ⟨c6.1 ⟨11, 37, PrayerStatus.active, defaultSettings, 300⟩ rfl, c6.2.2 [Action.startCycle]⟩

/-- C7: updateTimer r sets timeRemaining to max 0 r and changes nothing
else — step, status, stepDuration and settings are untouched, even at
zero; the scenario startCycle, updateTimer 150, nextStep ends in step 1,
time 300, Active. -/
theorem c7 :
    (∀ (s : StoreState) (r : ℚ),
      (updateTimer r s).timeRemaining = max 0 r ∧
      (updateTimer r s).currentStep = s.currentStep ∧
      (updateTimer r s).status = s.status ∧
      (updateTimer r s).stepDuration = s.stepDuration ∧
      (updateTimer r s).settings = s.settings) ∧
    ((runActions [Action.startCycle, Action.updateTimer 150, Action.nextStep] initState).currentStep = 1 ∧
     (runActions [Action.startCycle, Action.updateTimer 150, Action.nextStep] initState).timeRemaining = 300 ∧
     (runActions [Action.startCycle, Action.updateTimer 150, Action.nextStep] initState).status = PrayerStatus.active) := by
  refine ⟨fun s r => ⟨rfl, rfl, rfl, rfl, rfl⟩, ?_⟩
  decide

lemma tick_run {s : TimerState} (now : ℚ)
    (hrun : s.isRunning = true) (hpau : s.isPaused = false) :
    tick now s =
      if s.duration - (now - s.startTime) / 1000 ≤ 0 then
        ({ s with remainingTime := 0, isRunning := false, frameScheduled := false },
         [TimerEvent.tick 0, TimerEvent.complete])
      else
        ({ s with remainingTime := s.duration - (now - s.startTime) / 1000,
                  frameScheduled := true },
         [TimerEvent.tick (s.duration - (now - s.startTime) / 1000)]) := by
  have hcond : (!s.isRunning || s.isPaused) = false := by rw [hrun, hpau]; rfl
  unfold tick
  rw [hcond]
  simp only [Bool.false_eq_true, if_false]
  rcases le_or_lt (s.duration - (now - s.startTime) / 1000) 0 with h | h
  · rw [if_pos h, if_pos (max_le (le_refl 0) h), max_eq_left h]
  · rw [if_neg (not_le.mpr h), if_neg (not_le.mpr (lt_of_lt_of_le h (le_max_right 0 _))),
        max_eq_right (le_of_lt h)]

lemma tick_not_running {s : TimerState} (now : ℚ) (h : s.isRunning = false) :
    tick now s = (s, []) := by
  unfold tick
  rw [h]
  rfl

lemma pause_run {s : TimerState} (now : ℚ)
    (hrun : s.isRunning = true) (hpau : s.isPaused = false) :
    pause now s =
      ({ s with remainingTime := max 0 (s.duration - (now - s.startTime) / 1000),
                isPaused := true, pausedTime := now, frameScheduled := false },
       max 0 (s.duration - (now - s.startTime) / 1000)) := by
  have hcond : (!s.isRunning || s.isPaused) = false := by rw [hrun, hpau]; rfl
  unfold pause
  rw [hcond]
  rfl

lemma resume_none_run {s : TimerState} (now : ℚ)
    (hrun : s.isRunning = true) (hpau : s.isPaused = true) :
    resume now none s =
      tick now { s with startTime := s.startTime + (now - s.pausedTime), isPaused := false } := by
  have hcond : (!s.isRunning || !s.isPaused) = false := by rw [hrun, hpau]; rfl
  unfold resume
  rw [hcond]
  rfl

lemma resume_some_run {s : TimerState} (now r : ℚ)
    (hrun : s.isRunning = true) (hpau : s.isPaused = true) :
    resume now (some r) s =
      tick now { s with remainingTime := r, duration := r, startTime := now,
                        isPaused := false } := by
  have hcond : (!s.isRunning || !s.isPaused) = false := by rw [hrun, hpau]; rfl
  unfold resume
  rw [hcond]
  rfl

lemma tick_head {s : TimerState} (now : ℚ)
    (hrun : s.isRunning = true) (hpau : s.isPaused = false) :
    (tick now s).2.head? =
      some (TimerEvent.tick (max 0 (s.duration - (now - s.startTime) / 1000))) := by
  rw [tick_run now hrun hpau]
  rcases le_or_lt (s.duration - (now - s.startTime) / 1000) 0 with h | h
  · rw [if_pos h]
    simp [max_eq_left h]
  · rw [if_neg (not_le.mpr h)]
    simp [max_eq_right (le_of_lt h)]

lemma tick_pos_state {s : TimerState} (now : ℚ)
    (hrun : s.isRunning = true) (hpau : s.isPaused = false)
    (h : 0 < s.duration - (now - s.startTime) / 1000) :
    (tick now s).1 =
      { s with remainingTime := s.duration - (now - s.startTime) / 1000,
               frameScheduled := true } := by
  rw [tick_run now hrun hpau, if_neg (not_le.mpr h)]

lemma tick_nonpos_not_running {s : TimerState} (now : ℚ)
    (hrun : s.isRunning = true) (hpau : s.isPaused = false)
    (h : s.duration - (now - s.startTime) / 1000 ≤ 0) :
    (tick now s).1.isRunning = false := by
  rw [tick_run now hrun hpau, if_pos h]

/-- C4: pausing a running timer at remaining r and then resuming with no
override makes the resume tick report exactly r, and every later tick
report max 0 (r - (t - tResume)/1000), monotonically decreasing — the
elapsed pause interval is excluded from the elapsed-time accounting. The
statement quantifies over an arbitrary running state, so it applies to
each cycle of any number of pause/resume cycles. -/
theorem c4 (s : TimerState) (t1 t2 t3 t4 : ℚ)
    (hrun : s.isRunning = true) (hpau : s.isPaused = false)
    (h12 : t1 ≤ t2) (h23 : t2 ≤ t3) (h34 : t3 ≤ t4) :
    ((resume t2 none (pause t1 s).1).2
        = TimerEvent.tick (pause t1 s).2
            :: (if (pause t1 s).2 ≤ 0 then [TimerEvent.complete] else [])) ∧
    (0 < (pause t1 s).2 →
      ((tick t3 (resume t2 none (pause t1 s).1).1).2.head?
          = some (TimerEvent.tick (max 0 ((pause t1 s).2 - (t3 - t2) / 1000)))) ∧
      max 0 ((pause t1 s).2 - (t3 - t2) / 1000) ≤ (pause t1 s).2 ∧
      (∀ v3 v4 : ℚ,
        (tick t3 (resume t2 none (pause t1 s).1).1).2.head? = some (TimerEvent.tick v3) →
        (tick t4 (tick t3 (resume t2 none (pause t1 s).1).1).1).2.head?
            = some (TimerEvent.tick v4) →
        v4 ≤ v3)) := by
  set X := s.duration - (t1 - s.startTime) / 1000 with hXdef
  have hp : pause t1 s =
      ({ s with remainingTime := max 0 X, isPaused := true, pausedTime := t1,
                frameScheduled := false }, max 0 X) := pause_run t1 hrun hpau
  rw [hp]
  simp only
  set s1 : TimerState :=
    { s with remainingTime := max 0 X, isPaused := true, pausedTime := t1,
             frameScheduled := false } with hs1
  set s2pre : TimerState :=
    { s with remainingTime := max 0 X, pausedTime := t1, frameScheduled := false,
             startTime := s.startTime + (t2 - t1), isPaused := false } with hs2pre
  have hr2 : resume t2 none s1 = tick t2 s2pre :=
    resume_none_run t2 (show s1.isRunning = true from hrun) (show s1.isPaused = true from rfl)
  have key2 : s2pre.duration - (t2 - s2pre.startTime) / 1000 = X := by
    show s.duration - (t2 - (s.startTime + (t2 - t1))) / 1000 = X
    rw [hXdef]
    ring
  constructor
  · rw [hr2, tick_run t2 (show s2pre.isRunning = true from hrun)
        (show s2pre.isPaused = false from rfl), key2]
    rcases le_or_lt X 0 with h | h
    · rw [if_pos h, if_pos (max_le (le_refl 0) h), max_eq_left h]
    · rw [if_neg (not_le.mpr h), max_eq_right (le_of_lt h), if_neg (not_le.mpr h)]
  · intro hX0
    have hXpos : 0 < X := by
      rcases le_or_lt X 0 with h | h
      · rw [max_eq_left h] at hX0
        exact absurd hX0 (lt_irrefl 0)
      · exact h
    rw [max_eq_right (le_of_lt hXpos)] at hX0 ⊢
    have hs2 : (tick t2 s2pre).1 =
        { s2pre with remainingTime := X, frameScheduled := true } := by
      rw [tick_pos_state t2 (show s2pre.isRunning = true from hrun)
            (show s2pre.isPaused = false from rfl) (by rw [key2]; exact hXpos), key2]
    set s3pre : TimerState := { s2pre with remainingTime := X, frameScheduled := true }
      with hs3pre
    have key3 : s3pre.duration - (t3 - s3pre.startTime) / 1000 = X - (t3 - t2) / 1000 := by
      show s.duration - (t3 - (s.startTime + (t2 - t1))) / 1000 = X - (t3 - t2) / 1000
      rw [hXdef]
      ring
    have hdiv3 : (0:ℚ) ≤ (t3 - t2) / 1000 :=
      div_nonneg (by linarith) (by norm_num)
    have hrun3 : s3pre.isRunning = true := hrun
    have hpau3 : s3pre.isPaused = false := rfl
    refine ⟨?_, ?_, ?_⟩
    · rw [hr2, hs2, tick_head t3 hrun3 hpau3, key3]
    · exact max_le (le_of_lt hXpos) (by linarith)
    · intro v3 v4 hv3 hv4
      rw [hr2, hs2] at hv3 hv4
      rcases le_or_lt (X - (t3 - t2) / 1000) 0 with h3 | h3
      · have hnr : (tick t3 s3pre).1.isRunning = false :=
          tick_nonpos_not_running t3 hrun3 hpau3 (by rw [key3]; exact h3)
        rw [tick_not_running t4 hnr] at hv4
        simp at hv4
      · have hv3h : X - (t3 - t2) / 1000 = v3 := by
          rw [tick_head t3 hrun3 hpau3, key3, max_eq_right (le_of_lt h3)] at hv3
          simpa using hv3
        have hs3 : (tick t3 s3pre).1 =
            { s3pre with remainingTime := X - (t3 - t2) / 1000, frameScheduled := true } := by
          rw [tick_pos_state t3 hrun3 hpau3 (by rw [key3]; exact h3), key3]
        set s4pre : TimerState :=
          { s3pre with remainingTime := X - (t3 - t2) / 1000, frameScheduled := true }
          with hs4pre
        have key4 : s4pre.duration - (t4 - s4pre.startTime) / 1000 = X - (t4 - t2) / 1000 := by
          show s.duration - (t4 - (s.startTime + (t2 - t1))) / 1000 = X - (t4 - t2) / 1000
          rw [hXdef]
          ring
        have hrun4 : s4pre.isRunning = true := hrun
        have hpau4 : s4pre.isPaused = false := rfl
        rw [hs3, tick_head t4 hrun4 hpau4, key4] at hv4
        simp only [Option.some.injEq, TimerEvent.tick.injEq] at hv4
        rw [← hv4, ← hv3h]
        have hmono : (t3 - t2) / 1000 ≤ (t4 - t2) / 1000 :=
          (div_le_div_iff_of_pos_right (by norm_num : (0:ℚ) < 1000)).mpr (by linarith)
        exact max_le (le_of_lt h3) (by linarith)

/-- Witness instantiating C4 on a concrete running timer. -/
theorem c4_witness :
    (resume 5000 none (pause 2000 runningTimer).1).2
      = TimerEvent.tick (pause 2000 runningTimer).2
          :: (if (pause 2000 runningTimer).2 ≤ 0 then [TimerEvent.complete] else []) :=
  (c4 runningTimer 2000 5000 6000 7000 rfl rfl (by norm_num) (by norm_num) (by norm_num)).1

/-- C5 counterexample: resuming with the negative override -5 makes the
next tick report 0, which is not at most -5, so the claim fails for
negative override values. -/
theorem c5_counterexample :
    (resume 2000 (some (-5)) pausedTimer).2.head? = some (TimerEvent.tick 0) ∧
    ¬ ((0:ℚ) ≤ -5) := by
  constructor
  · rw [resume_some_run 2000 (-5) rfl rfl, tick_head 2000 rfl rfl]
    norm_num
  · norm_num

/-- C5 (amended): for every override value R at least 0, resume with
override R counts down R seconds from the moment of resumption: the
resume tick reports exactly R, every later tick reports
max 0 (R - (t - tResume)/1000), at most R and monotonically decreasing,
regardless of the engine's previous internal elapsed time. -/
theorem c5_amended (s : TimerState) (R t2 t3 t4 : ℚ)
    (hrun : s.isRunning = true) (hpau : s.isPaused = true) (hR : 0 ≤ R)
    (h23 : t2 ≤ t3) (h34 : t3 ≤ t4) :
    ((resume t2 (some R) s).2
        = TimerEvent.tick R :: (if R ≤ 0 then [TimerEvent.complete] else [])) ∧
    (0 < R →
      ((tick t3 (resume t2 (some R) s).1).2.head?
          = some (TimerEvent.tick (max 0 (R - (t3 - t2) / 1000)))) ∧
      max 0 (R - (t3 - t2) / 1000) ≤ R ∧
      (∀ v3 v4 : ℚ,
        (tick t3 (resume t2 (some R) s).1).2.head? = some (TimerEvent.tick v3) →
        (tick t4 (tick t3 (resume t2 (some R) s).1).1).2.head?
            = some (TimerEvent.tick v4) →
        v4 ≤ v3)) := by
  have hov : resume t2 (some R) s =
      tick t2 { s with remainingTime := R, duration := R, startTime := t2,
                       isPaused := false } :=
    resume_some_run t2 R hrun hpau
  set s2pre : TimerState :=
    { s with remainingTime := R, duration := R, startTime := t2, isPaused := false }
    with hs2pre
  have key2 : s2pre.duration - (t2 - s2pre.startTime) / 1000 = R := by
    show R - (t2 - t2) / 1000 = R
    ring
  have hrun2 : s2pre.isRunning = true := hrun
  have hpau2 : s2pre.isPaused = false := rfl
  constructor
  · rw [hov, tick_run t2 hrun2 hpau2, key2]
    rcases le_or_lt R 0 with h | h
    · have h0 : R = 0 := le_antisymm h hR
      rw [if_pos h, h0, if_pos (le_refl (0:ℚ))]
    · rw [if_neg (not_le.mpr h), if_neg (not_le.mpr h)]
  · intro hRpos
    have hs2 : (tick t2 s2pre).1 =
        { s2pre with remainingTime := R, frameScheduled := true } := by
      rw [tick_pos_state t2 hrun2 hpau2 (by rw [key2]; exact hRpos), key2]
    set s3pre : TimerState := { s2pre with remainingTime := R, frameScheduled := true }
      with hs3pre
    have key3 : s3pre.duration - (t3 - s3pre.startTime) / 1000 = R - (t3 - t2) / 1000 := by
      show R - (t3 - t2) / 1000 = R - (t3 - t2) / 1000
      rfl
    have hdiv3 : (0:ℚ) ≤ (t3 - t2) / 1000 :=
      div_nonneg (by linarith) (by norm_num)
    have hrun3 : s3pre.isRunning = true := hrun
    have hpau3 : s3pre.isPaused = false := rfl
    refine ⟨?_, ?_, ?_⟩
    · rw [hov, hs2, tick_head t3 hrun3 hpau3, key3]
    · exact max_le (le_of_lt hRpos) (by linarith)
    · intro v3 v4 hv3 hv4
      rw [hov, hs2] at hv3 hv4
      rcases le_or_lt (R - (t3 - t2) / 1000) 0 with h3 | h3
      · have hnr : (tick t3 s3pre).1.isRunning = false :=
          tick_nonpos_not_running t3 hrun3 hpau3 (by rw [key3]; exact h3)
        rw [tick_not_running t4 hnr] at hv4
        simp at hv4
      · have hv3h : R - (t3 - t2) / 1000 = v3 := by
          rw [tick_head t3 hrun3 hpau3, key3, max_eq_right (le_of_lt h3)] at hv3
          simpa using hv3
        have hs3 : (tick t3 s3pre).1 =
            { s3pre with remainingTime := R - (t3 - t2) / 1000, frameScheduled := true } := by
          rw [tick_pos_state t3 hrun3 hpau3 (by rw [key3]; exact h3), key3]
        set s4pre : TimerState :=
          { s3pre with remainingTime := R - (t3 - t2) / 1000, frameScheduled := true }
          with hs4pre
        have key4 : s4pre.duration - (t4 - s4pre.startTime) / 1000 = R - (t4 - t2) / 1000 := by
          show R - (t4 - t2) / 1000 = R - (t4 - t2) / 1000
          rfl
        have hrun4 : s4pre.isRunning = true := hrun
        have hpau4 : s4pre.isPaused = false := rfl
        rw [hs3, tick_head t4 hrun4 hpau4, key4] at hv4
        simp only [Option.some.injEq, TimerEvent.tick.injEq] at hv4
        rw [← hv4, ← hv3h]
        have hmono : (t3 - t2) / 1000 ≤ (t4 - t2) / 1000 :=
          (div_le_div_iff_of_pos_right (by norm_num : (0:ℚ) < 1000)).mpr (by linarith)
        exact max_le (le_of_lt h3) (by linarith)

/-- Witness instantiating the amended C5 on a concrete paused timer. -/
theorem c5_amended_witness :
    (resume 2000 (some 7) pausedTimer).2
      = TimerEvent.tick 7 :: (if (7:ℚ) ≤ 0 then [TimerEvent.complete] else []) :=
  (c5_amended pausedTimer 7 2000 3000 4000 rfl rfl (by norm_num) (by norm_num)
    (by norm_num)).1

lemma tick_cases (now : ℚ) (s : TimerState) :
    (tick now s = (s, [])) ∨
    (∃ v, 0 < v ∧ (tick now s).2 = [TimerEvent.tick v] ∧
      (tick now s).1.isRunning = s.isRunning) ∨
    ((tick now s).2 = [TimerEvent.tick 0, TimerEvent.complete] ∧
      (tick now s).1.isRunning = false ∧ (tick now s).1.frameScheduled = false) := by
  by_cases hr : s.isRunning = true
  · by_cases hpz : s.isPaused = true
    · left
      unfold tick
      rw [hr, hpz]
      rfl
    · have hp : s.isPaused = false := by
        revert hpz
        cases s.isPaused <;> simp
      rcases le_or_lt (s.duration - (now - s.startTime) / 1000) 0 with h | h
      · right; right
        rw [tick_run now hr hp, if_pos h]
        exact ⟨rfl, rfl, rfl⟩
      · right; left
        refine ⟨s.duration - (now - s.startTime) / 1000, h, ?_, ?_⟩ <;>
          rw [tick_run now hr hp, if_neg (not_le.mpr h)]
  · left
    exact tick_not_running now (by revert hr; cases s.isRunning <;> simp)

lemma runTicks_not_running (times : List ℚ) {s : TimerState} (h : s.isRunning = false) :
    runTicks times s = (s, []) := by
  induction times with
  | nil => rfl
  | cons t rest ih =>
    show ((runTicks rest (tick t s).1).1, (tick t s).2 ++ (runTicks rest (tick t s).1).2)
        = (s, [])
    rw [tick_not_running t h]
    simpa using ih

lemma runTicks_count_le (times : List ℚ) (s : TimerState) :
    ((runTicks times s).2.count TimerEvent.complete) ≤ 1 := by
  induction times generalizing s with
  | nil => simp [runTicks]
  | cons t rest ih =>
    have hsplit : (runTicks (t :: rest) s).2
        = (tick t s).2 ++ (runTicks rest (tick t s).1).2 := rfl
    rw [hsplit, List.count_append]
    rcases tick_cases t s with h | ⟨v, _, hev, _⟩ | ⟨hev, hrun, _⟩
    · rw [h]
      simpa using ih s
    · rw [hev]
      simpa using ih (tick t s).1
    · rw [hev, runTicks_not_running rest hrun]
      simp

/-- C8: within one tick the tick event always precedes the completion
event, and a completing tick marks the engine not running and schedules no
further frame; consequently any tick sequence, and in particular the tick
sequence of one start or resume cycle, emits at most one complete event. -/
theorem c8 :
    (∀ (now : ℚ) (s : TimerState),
      (tick now s = (s, [])) ∨
      (∃ v, 0 < v ∧ (tick now s).2 = [TimerEvent.tick v]) ∨
      ((tick now s).2 = [TimerEvent.tick 0, TimerEvent.complete] ∧
        (tick now s).1.isRunning = false ∧ (tick now s).1.frameScheduled = false)) ∧
    (∀ (times : List ℚ) (s : TimerState),
      ((runTicks times s).2.count TimerEvent.complete) ≤ 1) ∧
    (∀ (d now : ℚ) (s : TimerState) (times : List ℚ),
      (((start d now s).2
          ++ (runTicks times (start d now s).1).2).count TimerEvent.complete) ≤ 1) ∧
    (∀ (now : ℚ) (o : Option ℚ) (s : TimerState) (times : List ℚ),
      (((resume now o s).2
          ++ (runTicks times (resume now o s).1).2).count TimerEvent.complete) ≤ 1) := by
  refine ⟨?_, runTicks_count_le, ?_, ?_⟩
  · intro now s
    rcases tick_cases now s with h | ⟨v, hv, hev, _⟩ | h
    · exact Or.inl h
    · exact Or.inr (Or.inl ⟨v, hv, hev⟩)
    · exact Or.inr (Or.inr h)
  · intro d now s times
    exact runTicks_count_le (now :: times) (startInit d now s)
  · intro now o s times
    by_cases hr : s.isRunning = true
    · by_cases hpz : s.isPaused = true
      · cases o with
        | none =>
          rw [resume_none_run now hr hpz]
          exact runTicks_count_le (now :: times)
            { s with startTime := s.startTime + (now - s.pausedTime), isPaused := false }
        | some r =>
          rw [resume_some_run now r hr hpz]
          exact runTicks_count_le (now :: times)
            { s with remainingTime := r, duration := r, startTime := now, isPaused := false }
      · have hres : resume now o s = (s, []) := by
          unfold resume
          rw [hr, show s.isPaused = false by revert hpz; cases s.isPaused <;> simp]
          rfl
        rw [hres]
        simpa using runTicks_count_le times s
    · have hres : resume now o s = (s, []) := by
        unfold resume
        rw [show s.isRunning = false by revert hr; cases s.isRunning <;> simp]
        rfl
      rw [hres]
      simpa using runTicks_count_le times s

/-- C1 counterexample: a stored session whose currentStep is 15, or whose
timeRemaining is -5, makes loadSession return null, but the stored record
is left in place rather than deleted. -/
theorem c1_counterexample :
    isValidSessionData invalidStepSessionVal = Except.ok false ∧
    (loadSession 0 stBadStep).1 = none ∧
    (loadSession 0 stBadStep).2 = stBadStep ∧
    stBadStep.sessionRec.isSome = true ∧
    isValidSessionData negTimeSessionVal = Except.ok false ∧
    (loadSession 0 stNegTime).1 = none ∧
    (loadSession 0 stNegTime).2 = stNegTime ∧
    stNegTime.sessionRec.isSome = true :=
  ⟨rfl, rfl, rfl, rfl, rfl, rfl, rfl, rfl⟩

/-- C1 (amended): loadSession returns null for an absent record, a
structurally invalid record (such as currentStep = 15 or
timeRemaining = -5), a malformed record, and a record older than 2 hours;
the underlying record is deleted in the malformed and stale cases (and
when validation itself throws on a null value), but a structurally
invalid record is merely ignored, not deleted. -/
theorem c1_amended :
    (∀ (now : ℚ) (st : Storage), st.sessionRec = none →
      loadSession now st = (none, st)) ∧
    (∀ (now : ℚ) (st : Storage) (v : JVal),
      st.sessionRec = some (StoredDoc.parsed v) →
      isValidSessionData v = Except.ok false →
      loadSession now st = (none, st)) ∧
    (∀ (now : ℚ) (st : Storage), st.sessionRec = some StoredDoc.corrupt →
      loadSession now st = (none, clearSession st) ∧ (clearSession st).sessionRec = none) ∧
    (∀ (now : ℚ) (st : Storage) (v : JVal),
      st.sessionRec = some (StoredDoc.parsed v) →
      isValidSessionData v = Except.error () →
      loadSession now st = (none, clearSession st)) ∧
    (∀ (now : ℚ) (st : Storage) (v : JVal) (ts : ℚ),
      st.sessionRec = some (StoredDoc.parsed v) →
      isValidSessionData v = Except.ok true →
      numFieldD v "timestamp" = ts →
      maxSessionAge < now - ts →
      loadSession now st = (none, clearSession st)) := by
  refine ⟨?_, ?_, ?_, ?_, ?_⟩
  · intro now st h
    simp [loadSession, h]
  · intro now st v hrec hval
    simp [loadSession, hrec, parseDoc, hval]
  · intro now st hrec
    exact ⟨by simp [loadSession, hrec, parseDoc], rfl⟩
  · intro now st v hrec hval
    simp [loadSession, hrec, parseDoc, hval]
  · intro now st v ts hrec hval hts hstale
    simp only [loadSession, hrec, parseDoc, hval, hts]
    rw [if_neg (not_le.mpr hstale)]

/-- Witness instantiating the amended C1 at concrete storage states. -/
theorem c1_amended_witness :
    loadSession 0 (⟨none, none, none⟩ : Storage) = (none, (⟨none, none, none⟩ : Storage)) ∧
    loadSession 0 (⟨none, some StoredDoc.corrupt, none⟩ : Storage)
      = (none, clearSession (⟨none, some StoredDoc.corrupt, none⟩ : Storage)) ∧
    loadSession 10000000 stBadStep = (none, stBadStep) :=
  ⟨c1_amended.1 0 ⟨none, none, none⟩ rfl,
   (c1_amended.2.2.1 0 ⟨none, some StoredDoc.corrupt, none⟩ rfl).1,
   c1_amended.2.1 10000000 stBadStep invalidStepSessionVal rfl rfl⟩

/-- C9 counterexample: a primary settings record that parses but fails
validation (audioEnabled is a string) is repaired field-by-field with
defaults and the valid backup is not consulted, so loadSettings does not
return the backup settings. -/
theorem c9_counterexample :
    isValidSettingsData badPrimaryVal = Except.ok false ∧
    isValidSettingsData goodBackupVal = Except.ok true ∧
    (loadSettings cex9St).1 = defaultSettings ∧
    (loadSettings cex9St).1 ≠ settingsOfJVal goodBackupVal := by
  refine ⟨rfl, rfl, rfl, ?_⟩
  have h1 : (loadSettings cex9St).1 = defaultSettings := rfl
  have h2 : settingsOfJVal goodBackupVal
      = ⟨false, "#000000", DeviceType.desktop⟩ := rfl
  rw [h1, h2]
  simp [defaultSettings]

/-- C9 (amended): every saveSettings writes the serialized settings to
both the primary and the backup key; the validated backup (copied back
over the primary) is returned only when reading or parsing the primary
throws — a corrupt primary with a valid backup yields the backup
settings, while a corrupt primary with an absent or corrupt backup falls
back to the hard defaults. -/
theorem c9_amended :
    (∀ (s : UserSettings) (st : Storage),
      (saveSettings s st).settingsRec = some (StoredDoc.parsed (settingsToJVal s)) ∧
      (saveSettings s st).backupRec = some (StoredDoc.parsed (settingsToJVal s))) ∧
    (∀ (st : Storage) (v : JVal),
      st.settingsRec = some StoredDoc.corrupt →
      st.backupRec = some (StoredDoc.parsed v) →
      isValidSettingsData v = Except.ok true →
      loadSettings st
        = (settingsOfJVal v, { st with settingsRec := some (StoredDoc.parsed v) })) ∧
    (∀ st : Storage, st.settingsRec = some StoredDoc.corrupt → st.backupRec = none →
      loadSettings st = (defaultSettings, st)) ∧
    (∀ st : Storage, st.settingsRec = some StoredDoc.corrupt →
      st.backupRec = some StoredDoc.corrupt →
      loadSettings st = (defaultSettings, st)) := by
  refine ⟨?_, ?_, ?_, ?_⟩
  · intro s st
    exact ⟨rfl, rfl⟩
  · intro st v h1 h2 h3
    simp [loadSettings, h1, parseDoc, restoreSettingsFromBackup, h2, h3, Bind.bind, Except.bind]
  · intro st h1 h2
    simp [loadSettings, h1, parseDoc, restoreSettingsFromBackup, h2, Bind.bind, Except.bind]
  · intro st h1 h2
    simp [loadSettings, h1, parseDoc, restoreSettingsFromBackup, h2, Bind.bind, Except.bind]

/-- Witness instantiating the amended C9 at a concrete storage state. -/
theorem c9_amended_witness :
    loadSettings (⟨some StoredDoc.corrupt, none, some (StoredDoc.parsed goodBackupVal)⟩ : Storage)
      = (settingsOfJVal goodBackupVal,
         { (⟨some StoredDoc.corrupt, none, some (StoredDoc.parsed goodBackupVal)⟩ : Storage) with
           settingsRec := some (StoredDoc.parsed goodBackupVal) }) :=
  c9_amended.2.1 ⟨some StoredDoc.corrupt, none, some (StoredDoc.parsed goodBackupVal)⟩
    goodBackupVal rfl rfl rfl

/-- C10: saveSession in an Idle or Completed state performs no write and
leaves the storage exactly as it was; saveSession never deletes an
existing session record; deletion happens through clearSession. -/
theorem c10 :
    (∀ (now : ℚ) (state : StoreState) (st : Storage),
      state.status = PrayerStatus.idle ∨ state.status = PrayerStatus.completed →
      saveSession now state st = st) ∧
    (∀ (now : ℚ) (state : StoreState) (st : Storage),
      st.sessionRec.isSome = true → (saveSession now state st).sessionRec.isSome = true) ∧
    (∀ st : Storage, (clearSession st).sessionRec = none) := by
  refine ⟨?_, ?_, fun st => rfl⟩
  · intro now state st h
    rcases h with h | h <;> simp [saveSession, h]
  · intro now state st h
    unfold saveSession
    split_ifs
    · rfl
    · exact h

/-- Witness instantiating C10 at a concrete storage state. -/
theorem c10_witness :
    saveSession 0 initState someStorage = someStorage ∧
    (clearSession someStorage).sessionRec = none :=
  ⟨c10.1 0 initState someStorage (Or.inl rfl), c10.2.2 someStorage⟩

end PrayerCycle
